import Mathlib

/-!
# Verification of the notas-service sales-note saga

Shallow embedding of `src/notas-service/lambda_function.py`:
the create-note saga orchestrator (`create_nota_venta`), request
validation (`validate_nota_venta`), the document-store put with
side-channel metadata (`subir_pdf_s3`), the download/mark-downloaded
operation (`download_nota_pdf`), the notification publish
(`publicar_evento_notificacion`), the detail read (`get_nota_venta`)
and the exception-catching HTTP handler (`lambda_handler`).

Modelling choices:
* Python `Decimal` values (prices, quantities, totals) are embedded as
  exact rationals `ℚ`; the source's arithmetic on them
  (multiplication and addition of decimal fractions) is exact in
  `Decimal`, so `ℚ` is a faithful model.
* DynamoDB tables read during the saga (Clientes, Domicilios,
  Productos) are key-indexed maps `String → Option _`; the tables the
  saga writes (NotasVenta, ContenidoNotasVenta) are record lists, so
  that "zero new records" is directly expressible.
* The S3 bucket is a map from object key to object (body bytes are
  abstracted to the rendered string; metadata is the three flat
  string fields the source writes, with the send counter kept as the
  number it round-trips through `str`/`int`).
* Nondeterministic inputs of a run (the fresh UUIDs, the current
  date/time, whether the SNS publish transport succeeds, and whether
  a write-phase call raises) are gathered in a `Ctx` record;
  a raised exception is an `Except.error` carrying the partial state,
  caught by the handler exactly as the source's `try/except` does.
-/

/-- Customer record, as stored in the Clientes table. -/
structure Cliente where
  razon_social : String
  nombre_comercial : String
  rfc : String
  correo : String
  telefono : String
deriving Repr, DecidableEq

/-- Address record, as stored in the Domicilios table (only its
presence matters to the saga; the saga never reads its fields). -/
structure Domicilio where
  cliente_id : String
  tipo : String
deriving Repr, DecidableEq

/-- Product record, as stored in the Productos table. -/
structure Producto where
  nombre : String
  unidad : String
  precio_base : ℚ
deriving Repr, DecidableEq

/-- One entry of the `productos` list of a create-note request. -/
structure ProductoReq where
  producto_id : String
  cantidad : Int
deriving Repr, DecidableEq

/-- A create-note request body (`data`). An absent or falsy field of
the Python dict is modelled by the empty string / empty list. -/
structure NotaReq where
  cliente_id : String
  direccion_facturacion_id : String
  direccion_envio_id : String
  productos : List ProductoReq
deriving Repr, DecidableEq

/-- The Note record written to the NotasVenta table. -/
structure Nota where
  id : String
  folio : String
  cliente_id : String
  direccion_facturacion_id : String
  direccion_envio_id : String
  total : ℚ
  created_at : String
deriving Repr, DecidableEq

/-- The in-memory line draft the saga builds (`contenidos` list):
used for the PDF and the 201 response body. -/
structure ContenidoDraft where
  producto_id : String
  producto_nombre : String
  cantidad : ℚ
  precio_unitario : ℚ
  importe : ℚ
deriving Repr, DecidableEq

/-- The NoteLine record written to the ContenidoNotasVenta table
(`contenido_item` in the source): note that the source persists
exactly the keys `id`, `nota_id`, `producto_id`, `cantidad`,
`precio_unitario`, `importe` — no product-name field. -/
structure Contenido where
  id : String
  nota_id : String
  producto_id : String
  cantidad : ℚ
  precio_unitario : ℚ
  importe : ℚ
deriving Repr, DecidableEq

/-- A line of the detail-read response: the product is re-resolved
from the Productos table (`get_nota_venta` does a fresh `get_item`). -/
structure GetContenido where
  id : String
  producto : Producto
  cantidad : ℚ
  precio_unitario : ℚ
  importe : ℚ
deriving Repr, DecidableEq

/-- Flat S3 object metadata as written by the source: `hora-envio`,
`nota-descargada`, `veces-enviado` (the counter is stored as a string
`str n` and read back with `int`, an identity round trip, so it is
kept as a `Nat`). -/
structure S3Meta where
  hora_envio : String
  nota_descargada : String
  veces_enviado : Nat
deriving Repr, DecidableEq

/-- An object in the S3 bucket. -/
structure S3Object where
  body : String
  contentType : String
  metadata : S3Meta
deriving Repr, DecidableEq

/-- A pre-signed retrieval URL: the addressed key plus its validity
window in seconds (`ExpiresIn`). -/
structure PresignedUrl where
  key : String
  expiresIn : Nat
deriving Repr, DecidableEq

/-- An SNS message as published by `publicar_evento_notificacion`. -/
structure SnsMsg where
  email : String
  folio : String
  rfc : String
  api_gateway_url : String
  timestamp : String
deriving Repr, DecidableEq

/-- Response body payloads (the JSON bodies the service serialises). -/
inductive Body where
  | err (msg : String)
  | created (nota : Nota) (contenidos : List ContenidoDraft) (s3_key : String)
  | detail (nota : Nota) (cliente : Cliente) (dir_fact : Domicilio)
      (dir_envio : Domicilio) (contenidos : List GetContenido)
  | redirect (url : PresignedUrl)
deriving Repr, DecidableEq

/-- An HTTP response: status code plus body. -/
structure Resp where
  statusCode : Nat
  body : Body
deriving Repr, DecidableEq

/-- The external stores the service mutates: the two DynamoDB tables
it writes, the three it only reads, the S3 bucket, and the list of
published SNS events. -/
structure World where
  clientes : String → Option Cliente
  domicilios : String → Option Domicilio
  productos : String → Option Producto
  notas : List Nota
  contenidos : List Contenido
  bucket : String → Option S3Object
  sns : List SnsMsg

/-- Which external write-phase call raises an exception in this run
(`none` = the happy path where no call raises). -/
inductive Fault where
  | putNota
  | putContenido
  | renderPdf
  | putS3
deriving Repr, DecidableEq

/-- The nondeterministic inputs of one saga run: the fresh note UUID,
a supply of fresh line-record UUIDs, today's date (`%Y%m%d`), the
current ISO timestamp, whether the SNS transport succeeds, and which
write-phase call (if any) raises. -/
structure Ctx where
  nota_id : String
  contenido_ids : Nat → String
  today : String
  now : String
  sns_ok : Bool
  fault : Option Fault

/-- `validate_nota_venta` (source lines 45–63): checks the required
fields are present and truthy, the product list non-empty, and every
quantity positive; returns `some errorMessage` on the first failure,
`none` when valid. -/
def validate_nota_venta (data : NotaReq) : Option String :=
  if data.cliente_id = "" then some "Campo requerido: cliente_id"
  else if data.direccion_facturacion_id = "" then
    some "Campo requerido: direccion_facturacion_id"
  else if data.direccion_envio_id = "" then
    some "Campo requerido: direccion_envio_id"
  else if data.productos.isEmpty then some "Campo requerido: productos"
  else if data.productos.length = 0 then some "Debe incluir al menos un producto"
  else
    match data.productos.find? (fun p => p.cantidad ≤ 0) with
    | some _ => some "Cantidad debe ser mayor a 0"
    | none => none

/-- Python's `str.upper()` on an ASCII string: uppercase each char. -/
def pyUpper (s : String) : String := String.mk (s.data.map Char.toUpper)

/-- The folio derivation (source line 230):
`f"NV-{today}-{nota_id[:8].upper()}"`. -/
def folio_of (today nota_id : String) : String :=
  "NV-" ++ today ++ "-" ++ pyUpper (nota_id.take 8)

/-- The S3 object key `f"{rfc_cliente}/{folio}.pdf"` (source lines
122 and 361). -/
def s3_key_of (rfc_cliente folio : String) : String :=
  rfc_cliente ++ "/" ++ folio ++ ".pdf"

/-- The unit price times quantity a request line contributes to the
total, reading the unit price off the Productos table (0 when the
key does not resolve — `create_nota_venta` only reaches the total
when every key resolves). -/
def line_total (productos : String → Option Producto)
    (p : ProductoReq) : ℚ :=
  match productos p.producto_id with
  | some producto => (p.cantidad : ℚ) * producto.precio_base
  | none => 0

/-- The pricing loop of `create_nota_venta` (source lines 209–226):
resolve each requested product, accumulate `total += cantidad *
precio_unitario`, and append a line draft; the first unresolved
product key aborts with its 404 message. -/
def build_contenidos (productos : String → Option Producto) :
    List ProductoReq → ℚ → List ContenidoDraft →
    Except String (ℚ × List ContenidoDraft)
  | [], total, acc => .ok (total, acc)
  | item :: rest, total, acc =>
    match productos item.producto_id with
    | none => .error ("Producto " ++ item.producto_id ++ " no encontrado")
    | some producto =>
      let cantidad : ℚ := (item.cantidad : ℚ)
      let precio_unitario := producto.precio_base
      let importe := cantidad * precio_unitario
      build_contenidos productos rest (total + importe)
        (acc ++ [{ producto_id := item.producto_id
                 , producto_nombre := producto.nombre
                 , cantidad := cantidad
                 , precio_unitario := precio_unitario
                 , importe := importe }])

/-- `generar_pdf` (source lines 66–118): the fixed-layout rendering of
a note, abstracted to the string of its visible content in layout
order (title, customer block, folio, one row per line, total row). -/
def generar_pdf (nota : Nota) (cliente : Cliente)
    (contenidos : List ContenidoDraft) : String :=
  "NOTA DE VENTA\n"
    ++ "Razon Social: " ++ cliente.razon_social ++ "\n"
    ++ "Nombre Comercial: " ++ cliente.nombre_comercial ++ "\n"
    ++ "RFC: " ++ cliente.rfc ++ "\n"
    ++ "Correo: " ++ cliente.correo ++ "\n"
    ++ "Telefono: " ++ cliente.telefono ++ "\n"
    ++ "Folio: " ++ nota.folio ++ "\n"
    ++ String.join (contenidos.map (fun item =>
        toString item.cantidad ++ " | " ++ item.producto_nombre ++ " | "
          ++ toString item.precio_unitario ++ " | "
          ++ toString item.importe ++ "\n"))
    ++ "TOTAL: " ++ toString nota.total ++ "\n"

/-- `subir_pdf_s3` (source lines 121–147): compute the object key
`{rfc}/{folio}.pdf`; read the existing metadata and set the send
counter to existing+1, or to 1 if the object (or its counter) is
absent; then overwrite the object with the PDF bytes and fresh
metadata (`hora-envio` = now, `nota-descargada` = "false", the
counter). Returns the key and the updated bucket. -/
def subir_pdf_s3 (bucket : String → Option S3Object) (pdf : String)
    (rfc_cliente folio now : String) :
    String × (String → Option S3Object) :=
  let key := s3_key_of rfc_cliente folio
  let veces_enviado : Nat :=
    match bucket key with
    | some obj => obj.metadata.veces_enviado + 1
    | none => 1
  let obj : S3Object :=
    { body := pdf
    , contentType := "application/pdf"
    , metadata :=
      { hora_envio := now
      , nota_descargada := "false"
      , veces_enviado := veces_enviado } }
  (key, fun k => if k = key then some obj else bucket k)

/-- `publicar_evento_notificacion` (source lines 150–176): publish the
notification message to the SNS topic; any transport failure is
caught and reported as `false`, never raised. `snsOk` is whether the
transport succeeds in this run. -/
def publicar_evento_notificacion (snsOk : Bool) (sns : List SnsMsg)
    (cliente_email folio rfc_cliente api_gateway_url now : String) :
    Bool × List SnsMsg :=
  if snsOk then
    (true, sns ++ [{ email := cliente_email, folio := folio
                   , rfc := rfc_cliente
                   , api_gateway_url := api_gateway_url
                   , timestamp := now }])
  else
    (false, sns)

/-- The Note record assembled at source lines 232–240. -/
def nota_of (ctx : Ctx) (data : NotaReq) (total : ℚ) : Nota :=
  { id := ctx.nota_id
  , folio := folio_of ctx.today ctx.nota_id
  , cliente_id := data.cliente_id
  , direccion_facturacion_id := data.direccion_facturacion_id
  , direccion_envio_id := data.direccion_envio_id
  , total := total
  , created_at := ctx.now }

/-- The NoteLine persistence loop (source lines 248–258): one
`contenido_item` per draft, with a fresh UUID (`ctx.contenido_ids i`
for the i-th iteration) — the persisted record drops the
`producto_nombre` field of the draft. -/
def items_of (ctx : Ctx) (nota_id : String) :
    Nat → List ContenidoDraft → List Contenido
  | _, [] => []
  | i, c :: rest =>
    { id := ctx.contenido_ids i
    , nota_id := nota_id
    , producto_id := c.producto_id
    , cantidad := c.cantidad
    , precio_unitario := c.precio_unitario
    , importe := c.importe } :: items_of ctx nota_id (i + 1) rest

/-- `create_nota_venta` (source lines 179–309), the saga orchestrator.
Read phase: validation, then resolve customer, both addresses, and
every product (computing the line drafts and total) — each failure
returns its 400/404 response with the world untouched. Write phase:
persist the Note, persist each line record, render the PDF, store it
in S3, publish the best-effort notification, return 201. A raising
write-phase call is `Except.error` carrying the message and the
partial state; it propagates to `lambda_handler`. -/
def create_nota_venta (w : World) (ctx : Ctx) (data : NotaReq)
    (api_gateway_url : String) :
    Except (String × World) (Resp × World) :=
  match validate_nota_venta data with
  | some error => .ok (⟨400, .err error⟩, w)
  | none =>
    match w.clientes data.cliente_id with
    | none => .ok (⟨404, .err "Cliente no encontrado"⟩, w)
    | some cliente =>
      match w.domicilios data.direccion_facturacion_id,
            w.domicilios data.direccion_envio_id with
      | none, _ =>
        .ok (⟨404, .err "Direccion de facturacion no encontrada"⟩, w)
      | some _, none =>
        .ok (⟨404, .err "Direccion de envio no encontrada"⟩, w)
      | some _, some _ =>
        match build_contenidos w.productos data.productos 0 [] with
        | .error e => .ok (⟨404, .err e⟩, w)
        | .ok (total, contenidos) =>
          let folio := folio_of ctx.today ctx.nota_id
          let nota := nota_of ctx data total
          if ctx.fault = some .putNota then
            .error ("put_item NotasVenta failed", w)
          else
            let w1 := { w with notas := w.notas ++ [nota] }
            if ctx.fault = some .putContenido then
              .error ("put_item ContenidoNotasVenta failed", w1)
            else
              let items := items_of ctx ctx.nota_id 0 contenidos
              let w2 := { w1 with contenidos := w1.contenidos ++ items }
              if ctx.fault = some .renderPdf then
                .error ("generar_pdf failed", w2)
              else
                let pdf := generar_pdf nota cliente contenidos
                if ctx.fault = some .putS3 then
                  .error ("put_object failed", w2)
                else
                  let res := subir_pdf_s3 w2.bucket pdf cliente.rfc folio ctx.now
                  let w3 := { w2 with bucket := res.2 }
                  let pub := publicar_evento_notificacion ctx.sns_ok w3.sns
                    cliente.correo folio cliente.rfc api_gateway_url ctx.now
                  let w4 := { w3 with sns := pub.2 }
                  .ok (⟨201, .created nota contenidos res.1⟩, w4)

/-- The product re-resolution loop of `get_nota_venta` (source lines
337–349): each stored line's product is fetched with
`get_item(...)['Item']`, so an unresolved product key raises. -/
def resolve_contenidos (productos : String → Option Producto) :
    List Contenido → Except String (List GetContenido)
  | [] => .ok []
  | c :: rest =>
    match productos c.producto_id with
    | none => .error "KeyError: Item"
    | some p =>
      match resolve_contenidos productos rest with
      | .error e => .error e
      | .ok gs =>
        .ok ({ id := c.id, producto := p, cantidad := c.cantidad
             , precio_unitario := c.precio_unitario
             , importe := c.importe } :: gs)

/-- `get_nota_venta` (source lines 311–357): return 404 when the Note
record is absent; otherwise dereference customer, both addresses and
every line's product with `['Item']`, which raises (an
`Except.error`) when any of them is absent; on success return 200
with the joined detail. -/
def get_nota_venta (w : World) (nota_id : String) : Except String Resp :=
  match w.notas.find? (fun n => n.id = nota_id) with
  | none => .ok ⟨404, .err "Nota de venta no encontrada"⟩
  | some nota =>
    match w.clientes nota.cliente_id with
    | none => .error "KeyError: Item"
    | some cliente =>
      match w.domicilios nota.direccion_facturacion_id with
      | none => .error "KeyError: Item"
      | some dir_fact =>
        match w.domicilios nota.direccion_envio_id with
        | none => .error "KeyError: Item"
        | some dir_envio =>
          match resolve_contenidos w.productos
              (w.contenidos.filter (fun c => c.nota_id = nota_id)) with
          | .error e => .error e
          | .ok contenidos =>
            .ok ⟨200, .detail nota cliente dir_fact dir_envio contenidos⟩

/-- `download_nota_pdf` (source lines 360–406): head the object at
`{rfc}/{folio}.pdf` (absence raises, caught into the 404 response);
set its `nota-descargada` metadata to "true", re-put the unchanged
bytes with the updated metadata, and return a 302 redirect to a
pre-signed URL valid for 900 seconds. -/
def download_nota_pdf (bucket : String → Option S3Object)
    (rfc folio : String) : Resp × (String → Option S3Object) :=
  let key := s3_key_of rfc folio
  match bucket key with
  | none => (⟨404, .err "PDF no encontrado"⟩, bucket)
  | some obj =>
    let obj' : S3Object :=
      { obj with metadata := { obj.metadata with nota_descargada := "true" } }
    (⟨302, .redirect { key := key, expiresIn := 900 }⟩,
      fun k => if k = key then some obj' else bucket k)

/-- The `POST /notas` route of `lambda_handler` (source lines
437–476): run the saga and turn any raised exception into the 500
`Error interno` response, leaving the partial writes in place. -/
def handle_create (w : World) (ctx : Ctx) (data : NotaReq)
    (api_gateway_url : String) : Resp × World :=
  match create_nota_venta w ctx data api_gateway_url with
  | .ok rw => rw
  | .error ew => (⟨500, .err ("Error interno: " ++ ew.1)⟩, ew.2)

/-- The `GET /notas/{id}` route of `lambda_handler`: any exception
raised by `get_nota_venta` becomes the 500 `Error interno` response. -/
def handle_get (w : World) (nota_id : String) : Resp :=
  match get_nota_venta w nota_id with
  | .ok r => r
  | .error e => ⟨500, .err ("Error interno: " ++ e)⟩

/-- The draft the pricing loop builds for request line `p`: its
product key resolves to some `pr`, and the draft snapshots `pr`'s
name and price, with `importe = cantidad * precio_unitario`. -/
def DraftOf (productos : String → Option Producto)
    (p : ProductoReq) (d : ContenidoDraft) : Prop :=
  ∃ pr, productos p.producto_id = some pr ∧
    d = { producto_id := p.producto_id
        , producto_nombre := pr.nombre
        , cantidad := (p.cantidad : ℚ)
        , precio_unitario := pr.precio_base
        , importe := (p.cantidad : ℚ) * pr.precio_base }

/-- The character set of a Python `uuid4` string. -/
def uuidChars : List Char := "0123456789abcdef-".data

/-- A string drawn from the character set of a Python `uuid4` string
(lower-case hex digits and hyphen). -/
def UuidFragment (s : String) : Prop := ∀ c ∈ s.data, c ∈ uuidChars

instance (s : String) : Decidable (UuidFragment s) :=
  inferInstanceAs (Decidable (∀ c ∈ s.data, c ∈ uuidChars))

/-- Extract the persisted NoteLine records of a saga outcome. -/
def run_contenidos (x : Except (String × World) (Resp × World)) :
    Option (List Contenido) :=
  match x with
  | .ok rw => some rw.2.contenidos
  | .error _ => none

/-- A concrete populated store: one customer, a billing and a
shipping address, two products priced 25000.00 and 350.00. -/
def w0 : World :=
  { clientes := fun k =>
      if k = "c1" then some ⟨"ACME SA", "ACME", "ETE201125XYZ", "ventas@acme.mx", "5550001111"⟩
      else none
  , domicilios := fun k =>
      if k = "d1" then some ⟨"c1", "FACTURACION"⟩
      else if k = "d2" then some ⟨"c1", "ENVIO"⟩
      else none
  , productos := fun k =>
      if k = "p1" then some ⟨"Laptop", "PZA", 25000⟩
      else if k = "p2" then some ⟨"Mouse", "PZA", 350⟩
      else none
  , notas := []
  , contenidos := []
  , bucket := fun _ => none
  , sns := [] }

/-- `w0` with product `p1` renamed (same price): used to show the
persisted NoteLine records carry no product-name snapshot. -/
def w0N : World :=
  { w0 with productos := fun k =>
      if k = "p1" then some ⟨"Tablet", "PZA", 25000⟩
      else if k = "p2" then some ⟨"Mouse", "PZA", 350⟩
      else none }

/-- A concrete run context for the fixtures. -/
def ctx0 : Ctx :=
  { nota_id := "abc12345-0000-0000-0000-000000000000"
  , contenido_ids := fun i => "cid-" ++ toString i
  , today := "20261012"
  , now := "2026-10-12T00:00:00"
  , sns_ok := true
  , fault := none }

/-- The end-to-end request of the spec scenario: quantities [1, 2]. -/
def req0 : NotaReq := ⟨"c1", "d1", "d2", [⟨"p1", 1⟩, ⟨"p2", 2⟩]⟩

/-- A request whose product key does not resolve in `w0`. -/
def reqBadProd : NotaReq := ⟨"c1", "d1", "d2", [⟨"pX", 1⟩]⟩

/-- A request whose customer key does not resolve in `w0`. -/
def reqBadCli : NotaReq := ⟨"cX", "d1", "d2", [⟨"p1", 1⟩]⟩

/-- An empty bucket. -/
def bucket0 : String → Option S3Object := fun _ => none

/-- The bucket after a first `subir_pdf_s3` to `RFC1/F1.pdf`. -/
def bucket1 : String → Option S3Object :=
  (subir_pdf_s3 bucket0 "PDF" "RFC1" "F1" "T1").2

/-- A one-object bucket whose object has not been downloaded. -/
def bucketFresh : String → Option S3Object := fun k =>
  if k = s3_key_of "RFC1" "F1"
  then some ⟨"PDF", "application/pdf", ⟨"T1", "false", 1⟩⟩
  else none

/-- A one-object bucket whose object was already downloaded
(`nota-descargada` = "true") and sent once at time T0. -/
def bucketDown : String → Option S3Object := fun k =>
  if k = s3_key_of "RFC1" "F1"
  then some ⟨"PDF", "application/pdf", ⟨"T0", "true", 1⟩⟩
  else none

/-- A store holding one Note whose customer record is absent. -/
def wGet : World :=
  { w0 with notas := [⟨"n1", "NV-X", "cMISSING", "d1", "d2", 10, "T"⟩] }

/-- The world after a successful saga run. -/
def success_world (w : World) (ctx : Ctx) (data : NotaReq)
    (u : String) (cliente : Cliente) (total : ℚ)
    (drafts : List ContenidoDraft) : World :=
  { w with
    notas := w.notas ++ [nota_of ctx data total]
  , contenidos := w.contenidos ++ items_of ctx ctx.nota_id 0 drafts
  , bucket := (subir_pdf_s3 w.bucket
      (generar_pdf (nota_of ctx data total) cliente drafts)
      cliente.rfc (folio_of ctx.today ctx.nota_id) ctx.now).2
  , sns := (publicar_evento_notificacion ctx.sns_ok w.sns cliente.correo
      (folio_of ctx.today ctx.nota_id) cliente.rfc u ctx.now).2 }

lemma build_contenidos_ok (productos : String → Option Producto) :
    ∀ (ps : List ProductoReq) (t : ℚ) (acc : List ContenidoDraft)
      {total : ℚ} {cs : List ContenidoDraft},
      build_contenidos productos ps t acc = .ok (total, cs) →
      total = t + (ps.map (line_total productos)).sum ∧
      ∃ ds, cs = acc ++ ds ∧ List.Forall₂ (DraftOf productos) ps ds := by
  intro ps
  induction ps with
  | nil =>
    intro t acc total cs h
    simp only [build_contenidos, Except.ok.injEq, Prod.mk.injEq] at h
    obtain ⟨rfl, rfl⟩ := h
    exact ⟨by simp, [], by simp, List.Forall₂.nil⟩
  | cons p rest ih =>
    intro t acc total cs h
    simp only [build_contenidos] at h
    cases hp : productos p.producto_id with
    | none => rw [hp] at h; exact absurd h (by simp)
    | some pr =>
      rw [hp] at h
      obtain ⟨htotal, ds, hcs, hall⟩ := ih _ _ h
      refine ⟨?_, _ :: ds, by simp [hcs], List.Forall₂.cons ⟨pr, hp, rfl⟩ hall⟩
      rw [htotal]
      simp only [List.map_cons, List.sum_cons, line_total, hp]
      ring

lemma build_contenidos_error_of_missing (productos : String → Option Producto) :
    ∀ (ps : List ProductoReq) (t : ℚ) (acc : List ContenidoDraft),
      (∃ p ∈ ps, productos p.producto_id = none) →
      ∃ e, build_contenidos productos ps t acc = .error e := by
  intro ps
  induction ps with
  | nil => intro t acc h; simp at h
  | cons p rest ih =>
    intro t acc h
    simp only [build_contenidos]
    cases hp : productos p.producto_id with
    | none => exact ⟨_, rfl⟩
    | some pr =>
      rcases h with ⟨q, hq, hmiss⟩
      rw [List.mem_cons] at hq
      rcases hq with rfl | hq
      · rw [hp] at hmiss; cases hmiss
      · exact ih _ _ ⟨q, hq, hmiss⟩

lemma build_contenidos_ok_of_resolving (productos : String → Option Producto) :
    ∀ (ps : List ProductoReq) (t : ℚ) (acc : List ContenidoDraft),
      (∀ p ∈ ps, ∃ pr, productos p.producto_id = some pr) →
      ∃ total cs, build_contenidos productos ps t acc = .ok (total, cs) := by
  intro ps
  induction ps with
  | nil => intro t acc _; exact ⟨t, acc, rfl⟩
  | cons p rest ih =>
    intro t acc h
    obtain ⟨pr, hpr⟩ := h p (by simp)
    simp only [build_contenidos, hpr]
    exact ih _ _ (fun q hq => h q (by simp [hq]))

lemma create_success_eq {w : World} {ctx : Ctx} {data : NotaReq}
    {u : String} {cliente : Cliente} {df de : Domicilio} {total : ℚ}
    {drafts : List ContenidoDraft}
    (hval : validate_nota_venta data = none)
    (hcli : w.clientes data.cliente_id = some cliente)
    (hdf : w.domicilios data.direccion_facturacion_id = some df)
    (hde : w.domicilios data.direccion_envio_id = some de)
    (hbuild : build_contenidos w.productos data.productos 0 [] = .ok (total, drafts))
    (hfault : ctx.fault = none) :
    create_nota_venta w ctx data u = .ok
      (⟨201, .created (nota_of ctx data total) drafts
          (s3_key_of cliente.rfc (folio_of ctx.today ctx.nota_id))⟩,
       success_world w ctx data u cliente total drafts) := by
  simp only [create_nota_venta, hval, hcli, hdf, hde, hbuild, hfault]
  rfl

lemma create_ok_201_elim {w : World} {ctx : Ctx} {data : NotaReq}
    {u : String} {r : Resp} {w' : World}
    (h : create_nota_venta w ctx data u = .ok (r, w'))
    (h201 : r.statusCode = 201) :
    ∃ cliente total drafts,
      validate_nota_venta data = none ∧
      w.clientes data.cliente_id = some cliente ∧
      (∃ d, w.domicilios data.direccion_facturacion_id = some d) ∧
      (∃ d, w.domicilios data.direccion_envio_id = some d) ∧
      build_contenidos w.productos data.productos 0 [] = .ok (total, drafts) ∧
      ctx.fault = none ∧
      r = ⟨201, .created (nota_of ctx data total) drafts
          (s3_key_of cliente.rfc (folio_of ctx.today ctx.nota_id))⟩ ∧
      w' = success_world w ctx data u cliente total drafts := by
  cases hval : validate_nota_venta data with
  | some e =>
    simp only [create_nota_venta, hval, Except.ok.injEq, Prod.mk.injEq] at h
    rw [← h.1] at h201
    simp at h201
  | none =>
  cases hcli : w.clientes data.cliente_id with
  | none =>
    simp only [create_nota_venta, hval, hcli, Except.ok.injEq, Prod.mk.injEq] at h
    rw [← h.1] at h201
    simp at h201
  | some cliente =>
  cases hdf : w.domicilios data.direccion_facturacion_id with
  | none =>
    simp only [create_nota_venta, hval, hcli, hdf, Except.ok.injEq, Prod.mk.injEq] at h
    rw [← h.1] at h201
    simp at h201
  | some df =>
  cases hde : w.domicilios data.direccion_envio_id with
  | none =>
    simp only [create_nota_venta, hval, hcli, hdf, hde, Except.ok.injEq,
      Prod.mk.injEq] at h
    rw [← h.1] at h201
    simp at h201
  | some de =>
  cases hbuild : build_contenidos w.productos data.productos 0 [] with
  | error e =>
    simp only [create_nota_venta, hval, hcli, hdf, hde, hbuild, Except.ok.injEq,
      Prod.mk.injEq] at h
    rw [← h.1] at h201
    simp at h201
  | ok td =>
  obtain ⟨total, drafts⟩ := td
  cases hfault : ctx.fault with
  | some f =>
    cases f <;>
      simp [create_nota_venta, hval, hcli, hdf, hde, hbuild, hfault] at h
  | none =>
    rw [create_success_eq hval hcli hdf hde hbuild hfault] at h
    simp only [Except.ok.injEq, Prod.mk.injEq] at h
    exact ⟨cliente, total, drafts, rfl, rfl, ⟨df, rfl⟩, ⟨de, rfl⟩, rfl,
      rfl, h.1.symm, h.2.symm⟩

lemma validate_none_elim {data : NotaReq}
    (h : validate_nota_venta data = none) :
    data.cliente_id ≠ "" ∧ data.direccion_facturacion_id ≠ "" ∧
    data.direccion_envio_id ≠ "" ∧ data.productos ≠ [] ∧
    ∀ p ∈ data.productos, 0 < p.cantidad := by
  unfold validate_nota_venta at h
  by_cases h1 : data.cliente_id = ""
  · rw [if_pos h1] at h; cases h
  rw [if_neg h1] at h
  by_cases h2 : data.direccion_facturacion_id = ""
  · rw [if_pos h2] at h; cases h
  rw [if_neg h2] at h
  by_cases h3 : data.direccion_envio_id = ""
  · rw [if_pos h3] at h; cases h
  rw [if_neg h3] at h
  by_cases h4 : data.productos.isEmpty
  · rw [if_pos h4] at h; cases h
  rw [if_neg h4] at h
  by_cases h5 : data.productos.length = 0
  · rw [if_pos h5] at h; cases h
  rw [if_neg h5] at h
  refine ⟨h1, h2, h3, ?_, ?_⟩
  · intro hnil; rw [hnil] at h4; simp at h4
  · intro p hp
    cases hfind : data.productos.find? (fun p => decide (p.cantidad ≤ 0)) with
    | some q => rw [hfind] at h; cases h
    | none =>
      have := List.find?_eq_none.mp hfind p hp
      simp at this
      omega

lemma forall₂_and_left {α β : Type} {R : α → β → Prop} {Q : α → Prop} :
    ∀ {l1 : List α} {l2 : List β}, List.Forall₂ R l1 l2 →
      (∀ a ∈ l1, Q a) → List.Forall₂ (fun a b => Q a ∧ R a b) l1 l2 := by
  intro l1 l2 h hq
  induction h with
  | nil => exact .nil
  | cons hab _ ih =>
    exact .cons ⟨hq _ (by simp), hab⟩
      (ih (fun a ha => hq a (List.mem_cons_of_mem _ ha)))

lemma items_of_forall₂ {productos : String → Option Producto}
    {ps : List ProductoReq} {ds : List ContenidoDraft}
    (ctx : Ctx) (nid : String)
    (hall : List.Forall₂ (DraftOf productos) ps ds) :
    ∀ i, List.Forall₂ (fun (p : ProductoReq) (it : Contenido) =>
      it.nota_id = nid ∧ it.producto_id = p.producto_id ∧
      it.cantidad = (p.cantidad : ℚ) ∧
      (∃ pr, productos p.producto_id = some pr ∧
        it.precio_unitario = pr.precio_base) ∧
      it.importe = it.cantidad * it.precio_unitario)
      ps (items_of ctx nid i ds) := by
  induction hall with
  | nil => intro i; exact .nil
  | cons hpd _ ih =>
    intro i
    obtain ⟨pr, hpr, rfl⟩ := hpd
    exact .cons ⟨rfl, rfl, rfl, ⟨pr, hpr, rfl⟩, rfl⟩ (ih (i + 1))

lemma items_of_congr {ctx ctx' : Ctx}
    (h : ctx.contenido_ids = ctx'.contenido_ids) (nid : String) :
    ∀ (i : Nat) (ds : List ContenidoDraft),
      items_of ctx nid i ds = items_of ctx' nid i ds := by
  intro i ds
  induction ds generalizing i with
  | nil => rfl
  | cons c rest ih => simp only [items_of, h, ih]

lemma resolve_contenidos_error_of_missing
    (productos : String → Option Producto) :
    ∀ (cs : List Contenido), (∃ c ∈ cs, productos c.producto_id = none) →
      ∃ e, resolve_contenidos productos cs = .error e := by
  intro cs
  induction cs with
  | nil => intro h; simp at h
  | cons c rest ih =>
    intro h
    simp only [resolve_contenidos]
    cases hc : productos c.producto_id with
    | none => exact ⟨_, rfl⟩
    | some pr =>
      rcases h with ⟨q, hq, hmiss⟩
      rw [List.mem_cons] at hq
      rcases hq with rfl | hq
      · rw [hc] at hmiss; cases hmiss
      · obtain ⟨e, he⟩ := ih ⟨q, hq, hmiss⟩
        rw [he]
        exact ⟨e, rfl⟩

lemma toUpper_injOn_uuid :
    ∀ a ∈ uuidChars, ∀ b ∈ uuidChars,
      Char.toUpper a = Char.toUpper b → a = b := by decide

lemma map_toUpper_inj : ∀ {l1 l2 : List Char},
    (∀ c ∈ l1, c ∈ uuidChars) → (∀ c ∈ l2, c ∈ uuidChars) →
    l1.map Char.toUpper = l2.map Char.toUpper → l1 = l2 := by
  intro l1
  induction l1 with
  | nil =>
    intro l2 _ _ h
    cases l2 with
    | nil => rfl
    | cons b m => simp at h
  | cons a l ih =>
    intro l2 h1 h2 h
    cases l2 with
    | nil => simp at h
    | cons b m =>
      simp only [List.map_cons, List.cons.injEq] at h
      have hab := toUpper_injOn_uuid a (h1 a (by simp)) b (h2 b (by simp)) h.1
      subst hab
      rw [ih (fun c hc => h1 c (by simp [hc]))
        (fun c hc => h2 c (by simp [hc])) h.2]

lemma pyUpper_inj {s t : String} (hs : UuidFragment s) (ht : UuidFragment t)
    (h : pyUpper s = pyUpper t) : s = t := by
  have hd : s.data.map Char.toUpper = t.data.map Char.toUpper :=
    congrArg String.data h
  exact String.ext (map_toUpper_inj hs ht hd)

/-- C1: For every create-note request that passes validation and whose
customer, both addresses, and every product key resolve (equivalently:
every run whose response is 201), the total stored in the Note and
returned in the 201 response equals the exact fixed-point sum over the
requested lines of quantity × unit price, with no rounding and no
floating-point error (the arithmetic is exact in `ℚ`). -/
theorem create_total_exact {w : World} {ctx : Ctx} {data : NotaReq}
    {u : String} {r : Resp} {w' : World}
    (h : create_nota_venta w ctx data u = .ok (r, w'))
    (h201 : r.statusCode = 201) :
    ∃ nota drafts s3_key, r.body = .created nota drafts s3_key ∧
      w'.notas = w.notas ++ [nota] ∧
      nota.total = (data.productos.map (line_total w.productos)).sum := by
  obtain ⟨cliente, total, drafts, hval, hcli, _, _, hbuild, hfault, hr, hw⟩ :=
    create_ok_201_elim h h201
  obtain ⟨htotal, _⟩ := build_contenidos_ok w.productos data.productos 0 [] hbuild
  refine ⟨nota_of ctx data total, drafts, _, by rw [hr], ?_, ?_⟩
  · rw [hw]; rfl
  · show total = _
    rw [htotal]
    ring

/-- Witness for C1 at the spec's end-to-end scenario: quantities
[1, 2] at unit prices [25000.00, 350.00] yield total 25700.00. -/
theorem create_total_exact_witness :
    ∃ r w', create_nota_venta w0 ctx0 req0 "https://api" = .ok (r, w') ∧
      r.statusCode = 201 ∧
      ∃ nota drafts s3_key, r.body = .created nota drafts s3_key ∧
        w'.notas = w0.notas ++ [nota] ∧
        nota.total = (req0.productos.map (line_total w0.productos)).sum ∧
        nota.total = 25700 := by
  refine ⟨_, _, rfl, rfl, ?_⟩
  obtain ⟨nota, drafts, s3_key, h1, h2, h3⟩ :=
    @create_total_exact w0 ctx0 req0 "https://api" _ _ rfl rfl
  refine ⟨nota, drafts, s3_key, h1, h2, h3, ?_⟩
  rw [h3]
  simp [req0, w0, line_total]
  norm_num

/-- C2: Every create-note run whose response is a VALIDATION (400) or
NOT_FOUND (404) error leaves the world untouched: in particular the
ledger store holds zero new Note and zero new NoteLine records after
the error response (read-phase gates write nothing). -/
theorem create_read_error_no_write {w : World} {ctx : Ctx}
    {data : NotaReq} {u : String} {r : Resp} {w' : World}
    (h : create_nota_venta w ctx data u = .ok (r, w'))
    (herr : r.statusCode = 400 ∨ r.statusCode = 404) :
    w'.notas = w.notas ∧ w'.contenidos = w.contenidos ∧ w' = w := by
  cases hval : validate_nota_venta data with
  | some e =>
    simp only [create_nota_venta, hval, Except.ok.injEq, Prod.mk.injEq] at h
    rw [← h.2]
    exact ⟨rfl, rfl, rfl⟩
  | none =>
  cases hcli : w.clientes data.cliente_id with
  | none =>
    simp only [create_nota_venta, hval, hcli, Except.ok.injEq,
      Prod.mk.injEq] at h
    rw [← h.2]
    exact ⟨rfl, rfl, rfl⟩
  | some cliente =>
  cases hdf : w.domicilios data.direccion_facturacion_id with
  | none =>
    simp only [create_nota_venta, hval, hcli, hdf, Except.ok.injEq,
      Prod.mk.injEq] at h
    rw [← h.2]
    exact ⟨rfl, rfl, rfl⟩
  | some df =>
  cases hde : w.domicilios data.direccion_envio_id with
  | none =>
    simp only [create_nota_venta, hval, hcli, hdf, hde, Except.ok.injEq,
      Prod.mk.injEq] at h
    rw [← h.2]
    exact ⟨rfl, rfl, rfl⟩
  | some de =>
  cases hbuild : build_contenidos w.productos data.productos 0 [] with
  | error e =>
    simp only [create_nota_venta, hval, hcli, hdf, hde, hbuild,
      Except.ok.injEq, Prod.mk.injEq] at h
    rw [← h.2]
    exact ⟨rfl, rfl, rfl⟩
  | ok td =>
  obtain ⟨total, drafts⟩ := td
  cases hfault : ctx.fault with
  | some f =>
    cases f <;>
      simp [create_nota_venta, hval, hcli, hdf, hde, hbuild, hfault] at h
  | none =>
    rw [create_success_eq hval hcli hdf hde hbuild hfault] at h
    simp only [Except.ok.injEq, Prod.mk.injEq] at h
    rw [← h.1] at herr
    simp at herr

/-- Witness for C2: an unresolved product key on the populated store
yields the 404 and returns the store unchanged. -/
theorem create_read_error_no_write_witness :
    create_nota_venta w0 ctx0 reqBadProd "https://api" =
      .ok (⟨404, .err "Producto pX no encontrado"⟩, w0) ∧
    w0.notas = w0.notas ∧ w0.contenidos = w0.contenidos ∧ w0 = w0 :=
  ⟨rfl, @create_read_error_no_write w0 ctx0 reqBadProd "https://api"
    ⟨404, .err "Producto pX no encontrado"⟩ w0 rfl (Or.inr rfl)⟩

/-- C3 counterexample: the persisted NoteLine record does NOT contain
a product-name snapshot. Two stores that differ only in the name of
product `p1` ("Laptop" vs "Tablet") produce identical (non-empty)
persisted NoteLine records for the same request — the `contenido_item`
the source writes has exactly the keys `id`, `nota_id`, `producto_id`,
`cantidad`, `precio_unitario`, `importe`, and `get_nota_venta` has to
re-resolve the product from the Productos table to recover a name. -/
theorem persisted_line_no_name_counterexample :
    w0.productos "p1" ≠ w0N.productos "p1" ∧
    run_contenidos (create_nota_venta w0 ctx0 req0 "https://api") =
      run_contenidos (create_nota_venta w0N ctx0 req0 "https://api") ∧
    run_contenidos (create_nota_venta w0 ctx0 req0 "https://api") ≠ some [] :=
  ⟨by decide, by rfl, by
    intro h
    rw [show run_contenidos (create_nota_venta w0 ctx0 req0 "https://api") =
      some (items_of ctx0 ctx0.nota_id 0 [⟨"p1", "Laptop", 1, 25000, 1 * 25000⟩,
        ⟨"p2", "Mouse", 2, 350, 2 * 350⟩]) from rfl] at h
    cases h⟩

/-- C3 (amended): every NoteLine record persisted by a successful
create-note run contains the owning note key, the product key, a
positive quantity (the requested integer quantity), the unit price
snapshot taken from the Productos table at creation, and line amount
equal to quantity × unit price — but no product-name snapshot (the
name appears only in the response drafts and the rendered PDF). -/
theorem persisted_lines_fields {w : World} {ctx : Ctx} {data : NotaReq}
    {u : String} {r : Resp} {w' : World}
    (h : create_nota_venta w ctx data u = .ok (r, w'))
    (h201 : r.statusCode = 201) :
    ∃ nota drafts s3_key items, r.body = .created nota drafts s3_key ∧
      w'.contenidos = w.contenidos ++ items ∧
      List.Forall₂ (fun (p : ProductoReq) (it : Contenido) =>
        (0 < p.cantidad ∧ 0 < it.cantidad) ∧
        it.nota_id = nota.id ∧ it.producto_id = p.producto_id ∧
        it.cantidad = (p.cantidad : ℚ) ∧
        (∃ pr, w.productos p.producto_id = some pr ∧
          it.precio_unitario = pr.precio_base) ∧
        it.importe = it.cantidad * it.precio_unitario)
        data.productos items := by
  obtain ⟨cliente, total, drafts, hval, hcli, _, _, hbuild, hfault, hr, hw⟩ :=
    create_ok_201_elim h h201
  obtain ⟨_, ds, hds, hall⟩ := build_contenidos_ok w.productos data.productos 0 [] hbuild
  rw [List.nil_append] at hds
  subst hds
  have hpos := (validate_none_elim hval).2.2.2.2
  have hitems := items_of_forall₂ ctx ctx.nota_id hall 0
  refine ⟨nota_of ctx data total, drafts, _, items_of ctx ctx.nota_id 0 drafts,
    by rw [hr], by rw [hw]; rfl, ?_⟩
  have := forall₂_and_left hitems hpos
  refine this.imp ?_
  rintro p it ⟨hq, h1, h2, h3, h4, h5⟩
  exact ⟨⟨hq, by rw [h3]; exact_mod_cast hq⟩, h1, h2, h3, h4, h5⟩

/-- Witness for C3 (amended) at the end-to-end scenario. -/
theorem persisted_lines_fields_witness :
    ∃ r w', create_nota_venta w0 ctx0 req0 "https://api" = .ok (r, w') ∧
      r.statusCode = 201 ∧
      ∃ nota drafts s3_key items, r.body = .created nota drafts s3_key ∧
        w'.contenidos = w0.contenidos ++ items ∧
        List.Forall₂ (fun (p : ProductoReq) (it : Contenido) =>
          (0 < p.cantidad ∧ 0 < it.cantidad) ∧
          it.nota_id = nota.id ∧ it.producto_id = p.producto_id ∧
          it.cantidad = (p.cantidad : ℚ) ∧
          (∃ pr, w0.productos p.producto_id = some pr ∧
            it.precio_unitario = pr.precio_base) ∧
          it.importe = it.cantidad * it.precio_unitario)
          req0.productos items := by
  refine ⟨_, _, rfl, rfl, ?_⟩
  exact @persisted_lines_fields w0 ctx0 req0 "https://api" _ _ rfl rfl

/-- C4: `subir_pdf_s3` initializes the send counter to 1 on the first
write to an `(owner, reference)` address, and on a subsequent
sequential put reads the existing counter and writes it incremented
by one — so under sequential calls the stored send counter never
decreases (new counter = old counter + 1 ≥ old counter). -/
theorem subir_counter_init_increment
    (bucket : String → Option S3Object) (pdf rfc folio now : String) :
    (subir_pdf_s3 bucket pdf rfc folio now).1 = s3_key_of rfc folio ∧
    (bucket (s3_key_of rfc folio) = none →
      ∃ obj', (subir_pdf_s3 bucket pdf rfc folio now).2 (s3_key_of rfc folio) =
          some obj' ∧ obj'.metadata.veces_enviado = 1) ∧
    (∀ obj, bucket (s3_key_of rfc folio) = some obj →
      ∃ obj', (subir_pdf_s3 bucket pdf rfc folio now).2 (s3_key_of rfc folio) =
          some obj' ∧
        obj'.metadata.veces_enviado = obj.metadata.veces_enviado + 1 ∧
        obj.metadata.veces_enviado ≤ obj'.metadata.veces_enviado) := by
  refine ⟨rfl, ?_, ?_⟩
  · intro h
    simp only [subir_pdf_s3, h]
    refine ⟨⟨pdf, "application/pdf", ⟨now, "false", 1⟩⟩, ?_, rfl⟩
    simp
  · intro obj h
    simp only [subir_pdf_s3, h]
    refine ⟨⟨pdf, "application/pdf",
      ⟨now, "false", obj.metadata.veces_enviado + 1⟩⟩, ?_, rfl, by simp⟩
    simp

/-- Witness for C4: after a first put (counter 1), a second sequential
put to the same address stores counter 2. -/
theorem subir_counter_init_increment_witness :
    bucket1 (s3_key_of "RFC1" "F1") =
      some ⟨"PDF", "application/pdf", ⟨"T1", "false", 1⟩⟩ ∧
    ∃ obj', (subir_pdf_s3 bucket1 "PDF" "RFC1" "F1" "T2").2
        (s3_key_of "RFC1" "F1") = some obj' ∧
      obj'.metadata.veces_enviado = 2 ∧
      1 ≤ obj'.metadata.veces_enviado :=
  ⟨rfl, (subir_counter_init_increment bucket1 "PDF" "RFC1" "F1" "T2").2.2
    ⟨"PDF", "application/pdf", ⟨"T1", "false", 1⟩⟩ rfl⟩

/-- C9: every `subir_pdf_s3` writes the `nota-descargada` metadata as
"false" unconditionally and the send timestamp as the put-time `now`:
re-sending a document whose downloaded flag was set to true by a
retrieval resets the flag to false, carrying over only the send
counter from the prior metadata, not the flag or the old timestamp. -/
theorem subir_resets_downloaded_flag
    (bucket : String → Option S3Object) (pdf rfc folio now : String)
    (obj : S3Object) (h : bucket (s3_key_of rfc folio) = some obj) :
    (subir_pdf_s3 bucket pdf rfc folio now).2 (s3_key_of rfc folio) =
      some ⟨pdf, "application/pdf",
        ⟨now, "false", obj.metadata.veces_enviado + 1⟩⟩ := by
  simp only [subir_pdf_s3, h]
  simp

/-- Witness for C9: re-sending over an object whose flag is "true"
(sent at T0) stores flag "false", timestamp T2 and counter 2. -/
theorem subir_resets_downloaded_flag_witness :
    bucketDown (s3_key_of "RFC1" "F1") =
      some ⟨"PDF", "application/pdf", ⟨"T0", "true", 1⟩⟩ ∧
    (subir_pdf_s3 bucketDown "PDF2" "RFC1" "F1" "T2").2
        (s3_key_of "RFC1" "F1") =
      some ⟨"PDF2", "application/pdf", ⟨"T2", "false", 2⟩⟩ :=
  ⟨rfl, subir_resets_downloaded_flag bucketDown "PDF2" "RFC1" "F1" "T2"
    ⟨"PDF", "application/pdf", ⟨"T0", "true", 1⟩⟩ rfl⟩

/-- C5: when the object exists, `download_nota_pdf` returns a 302
redirect carrying a retrieval handle valid for 900 seconds (15
minutes) — not the bytes — and re-persists the object with the same
body, content type, send timestamp and send counter, with the
`nota-descargada` flag set to "true"; repeating the retrieval leaves
the bucket unchanged (idempotent: the flag stays "true"). -/
theorem download_flips_flag_idempotent
    (bucket : String → Option S3Object) (rfc folio : String)
    (obj : S3Object) (h : bucket (s3_key_of rfc folio) = some obj) :
    (download_nota_pdf bucket rfc folio).1 =
      ⟨302, .redirect ⟨s3_key_of rfc folio, 900⟩⟩ ∧
    (download_nota_pdf bucket rfc folio).2 (s3_key_of rfc folio) =
      some ⟨obj.body, obj.contentType,
        ⟨obj.metadata.hora_envio, "true", obj.metadata.veces_enviado⟩⟩ ∧
    (download_nota_pdf (download_nota_pdf bucket rfc folio).2 rfc folio).2 =
      (download_nota_pdf bucket rfc folio).2 := by
  refine ⟨by simp only [download_nota_pdf, h], ?_, ?_⟩
  · simp only [download_nota_pdf, h]
    simp
  · simp only [download_nota_pdf, h]
    funext k
    by_cases hk : k = s3_key_of rfc folio <;> simp [download_nota_pdf, hk, h]

/-- Witness for C5: a fresh (never-downloaded) object; the retrieval
flips its flag "false" → "true" and is idempotent. -/
theorem download_flips_flag_idempotent_witness :
    bucketFresh (s3_key_of "RFC1" "F1") =
      some ⟨"PDF", "application/pdf", ⟨"T1", "false", 1⟩⟩ ∧
    ((download_nota_pdf bucketFresh "RFC1" "F1").1 =
      ⟨302, .redirect ⟨s3_key_of "RFC1" "F1", 900⟩⟩ ∧
    (download_nota_pdf bucketFresh "RFC1" "F1").2 (s3_key_of "RFC1" "F1") =
      some ⟨"PDF", "application/pdf", ⟨"T1", "true", 1⟩⟩ ∧
    (download_nota_pdf (download_nota_pdf bucketFresh "RFC1" "F1").2
        "RFC1" "F1").2 =
      (download_nota_pdf bucketFresh "RFC1" "F1").2) :=
  ⟨rfl, download_flips_flag_idempotent bucketFresh "RFC1" "F1"
    ⟨"PDF", "application/pdf", ⟨"T1", "false", 1⟩⟩ rfl⟩

/-- C6: once a create-note run has completed the write phase (it
produced the 201 response under a succeeding SNS transport), a failing
notification publish is absorbed: the run with the failing transport
returns the identical 201 response — same Note, lines and artifact
address — and the same stores, except that no event was published. -/
theorem publish_failure_never_propagates {w : World} {ctx : Ctx}
    {data : NotaReq} {u : String} {r : Resp} {w₁ : World}
    (h : create_nota_venta w { ctx with sns_ok := true } data u = .ok (r, w₁))
    (h201 : r.statusCode = 201) :
    create_nota_venta w { ctx with sns_ok := false } data u =
      .ok (r, { w₁ with sns := w.sns }) := by
  obtain ⟨cliente, total, drafts, hval, hcli, ⟨df, hdf⟩, ⟨de, hde⟩, hbuild,
    hfault, hr, hw⟩ := create_ok_201_elim h h201
  have h2 := @create_success_eq w { ctx with sns_ok := false } data u _ _ _ _ _
    hval hcli hdf hde hbuild hfault
  rw [h2, hr, hw]
  have hitems : items_of { ctx with sns_ok := false } ctx.nota_id 0 drafts =
      items_of { ctx with sns_ok := true } ctx.nota_id 0 drafts :=
    @items_of_congr { ctx with sns_ok := false } { ctx with sns_ok := true }
      rfl ctx.nota_id 0 drafts
  simp only [success_world]
  rw [hitems]
  rfl

/-- Witness for C6 at the end-to-end scenario: the same run with a
failing SNS transport returns the identical 201 response. -/
theorem publish_failure_never_propagates_witness :
    ∃ r w₁, create_nota_venta w0 { ctx0 with sns_ok := true } req0
        "https://api" = .ok (r, w₁) ∧
      r.statusCode = 201 ∧
      create_nota_venta w0 { ctx0 with sns_ok := false } req0 "https://api" =
        .ok (r, { w₁ with sns := w0.sns }) := by
  refine ⟨_, _, rfl, rfl, ?_⟩
  exact @publish_failure_never_propagates w0 ctx0 req0 "https://api" _ _ rfl rfl

/-- C7: every Note created by a successful run carries the folio
"NV-" ++ date(YYYYMMDD) ++ "-" ++ upper-case of the first 8 characters
of the note's identity; and for fragments drawn from the uuid4
alphabet, two notes whose 8-character identity fragments differ get
distinct folios even on the same day. -/
theorem folio_derivation_unique :
    (∀ (w : World) (ctx : Ctx) (data : NotaReq) (u : String) (r : Resp)
        (w' : World),
      create_nota_venta w ctx data u = .ok (r, w') → r.statusCode = 201 →
      ∃ nota drafts s3_key, r.body = .created nota drafts s3_key ∧
        nota.folio = "NV-" ++ ctx.today ++ "-" ++ pyUpper (ctx.nota_id.take 8)) ∧
    (∀ today id1 id2, UuidFragment (id1.take 8) → UuidFragment (id2.take 8) →
      id1.take 8 ≠ id2.take 8 →
      folio_of today id1 ≠ folio_of today id2) := by
  constructor
  · intro w ctx data u r w' h h201
    obtain ⟨cliente, total, drafts, _, _, _, _, _, _, hr, _⟩ :=
      create_ok_201_elim h h201
    exact ⟨nota_of ctx data total, drafts, _, by rw [hr], rfl⟩
  · intro today id1 id2 h1 h2 hne heq
    apply hne
    have hd := congrArg String.data heq
    simp only [folio_of, String.data_append] at hd
    have hd2 : (pyUpper (id1.take 8)).data = (pyUpper (id2.take 8)).data :=
      List.append_cancel_left hd
    exact pyUpper_inj h1 h2 (String.ext hd2)

/-- Witness for C7: the scenario's created Note carries the derived
folio, and two uuid fragments differing in their 8th character give
distinct folios on the same day. -/
theorem folio_derivation_unique_witness :
    (∃ r w', create_nota_venta w0 ctx0 req0 "https://api" = .ok (r, w') ∧
      r.statusCode = 201 ∧
      ∃ nota drafts s3_key, r.body = .created nota drafts s3_key ∧
        nota.folio = "NV-" ++ ctx0.today ++ "-" ++ pyUpper (ctx0.nota_id.take 8)) ∧
    (UuidFragment (("aaaabbbb-1111-2222" : String).take 8) ∧
     UuidFragment (("aaaabbbc-1111-2222" : String).take 8) ∧
     ("aaaabbbb-1111-2222" : String).take 8 ≠
       ("aaaabbbc-1111-2222" : String).take 8 ∧
     folio_of "20261012" "aaaabbbb-1111-2222" ≠
       folio_of "20261012" "aaaabbbc-1111-2222") := by
  constructor
  · refine ⟨_, _, rfl, rfl, ?_⟩
    exact folio_derivation_unique.1 w0 ctx0 req0 "https://api" _ _ rfl rfl
  · exact ⟨by decide, by decide, by decide,
      folio_derivation_unique.2 "20261012" _ _ (by decide) (by decide)
        (by decide)⟩

/-- C8: create-note classifies errors per the taxonomy. A validation
failure (missing/falsy required field, empty product list, or any
quantity ≤ 0) yields its 400 VALIDATION response; an unresolved
customer, billing-address, shipping-address or product key yields the
404 NOT_FOUND response; an exception raised in the write phase
(persistence, rendering or storage) surfaces through `lambda_handler`
as the 500 INTERNAL response. -/
theorem create_error_taxonomy (w : World) (ctx : Ctx) (data : NotaReq)
    (u : String) :
    (∀ e, validate_nota_venta data = some e →
      (handle_create w ctx data u).1 = ⟨400, .err e⟩) ∧
    ((data.cliente_id = "" ∨ data.productos = [] ∨
        ∃ p ∈ data.productos, p.cantidad ≤ 0) →
      ∃ e, validate_nota_venta data = some e) ∧
    (validate_nota_venta data = none →
      w.clientes data.cliente_id = none →
      (handle_create w ctx data u).1 = ⟨404, .err "Cliente no encontrado"⟩) ∧
    (∀ cliente, validate_nota_venta data = none →
      w.clientes data.cliente_id = some cliente →
      w.domicilios data.direccion_facturacion_id = none →
      (handle_create w ctx data u).1 =
        ⟨404, .err "Direccion de facturacion no encontrada"⟩) ∧
    (∀ cliente df, validate_nota_venta data = none →
      w.clientes data.cliente_id = some cliente →
      w.domicilios data.direccion_facturacion_id = some df →
      w.domicilios data.direccion_envio_id = none →
      (handle_create w ctx data u).1 =
        ⟨404, .err "Direccion de envio no encontrada"⟩) ∧
    (∀ cliente df de, validate_nota_venta data = none →
      w.clientes data.cliente_id = some cliente →
      w.domicilios data.direccion_facturacion_id = some df →
      w.domicilios data.direccion_envio_id = some de →
      (∃ p ∈ data.productos, w.productos p.producto_id = none) →
      (handle_create w ctx data u).1.statusCode = 404) ∧
    (∀ cliente df de f, validate_nota_venta data = none →
      w.clientes data.cliente_id = some cliente →
      w.domicilios data.direccion_facturacion_id = some df →
      w.domicilios data.direccion_envio_id = some de →
      (∀ p ∈ data.productos, ∃ pr, w.productos p.producto_id = some pr) →
      ctx.fault = some f →
      (handle_create w ctx data u).1.statusCode = 500) := by
  refine ⟨?_, ?_, ?_, ?_, ?_, ?_, ?_⟩
  · intro e he
    simp [handle_create, create_nota_venta, he]
  · intro h
    cases hv : validate_nota_venta data with
    | some e => exact ⟨e, rfl⟩
    | none =>
      exfalso
      obtain ⟨h1, _, _, h4, h5⟩ := validate_none_elim hv
      rcases h with h | h | ⟨p, hp, hq⟩
      · exact h1 h
      · exact h4 h
      · have := h5 p hp
        omega
  · intro hval hcli
    simp [handle_create, create_nota_venta, hval, hcli]
  · intro cliente hval hcli hdf
    simp [handle_create, create_nota_venta, hval, hcli, hdf]
  · intro cliente df hval hcli hdf hde
    simp [handle_create, create_nota_venta, hval, hcli, hdf, hde]
  · intro cliente df de hval hcli hdf hde hmiss
    obtain ⟨e, he⟩ :=
      build_contenidos_error_of_missing w.productos data.productos 0 [] hmiss
    simp [handle_create, create_nota_venta, hval, hcli, hdf, hde, he]
  · intro cliente df de f hval hcli hdf hde hres hf
    obtain ⟨t, cs, hb⟩ :=
      build_contenidos_ok_of_resolving w.productos data.productos 0 [] hres
    cases f <;>
      simp [handle_create, create_nota_venta, hval, hcli, hdf, hde, hb, hf]

/-- Witness for C8: a request whose customer key does not resolve is
rejected with the 404 NOT_FOUND response. -/
theorem create_error_taxonomy_witness :
    validate_nota_venta reqBadCli = none ∧
    w0.clientes reqBadCli.cliente_id = none ∧
    (handle_create w0 ctx0 reqBadCli "https://api").1 =
      ⟨404, .err "Cliente no encontrado"⟩ :=
  ⟨rfl, rfl,
    (create_error_taxonomy w0 ctx0 reqBadCli "https://api").2.2.1 rfl rfl⟩

/-- C10: the Note detail read returns NOT_FOUND (404) exactly when
the Note record itself is absent; when the Note exists but its
customer, either address, or a line's product key no longer resolves,
the `['Item']` dereference raises and the handler returns the 500
internal error instead of 404. -/
theorem get_404_only_when_nota_absent (w : World) (nota_id : String) :
    ((handle_get w nota_id).statusCode = 404 ↔
      w.notas.find? (fun n => n.id = nota_id) = none) ∧
    (∀ nota, w.notas.find? (fun n => n.id = nota_id) = some nota →
      w.clientes nota.cliente_id = none →
      (handle_get w nota_id).statusCode = 500) ∧
    (∀ nota cliente, w.notas.find? (fun n => n.id = nota_id) = some nota →
      w.clientes nota.cliente_id = some cliente →
      w.domicilios nota.direccion_facturacion_id = none →
      (handle_get w nota_id).statusCode = 500) ∧
    (∀ nota cliente df, w.notas.find? (fun n => n.id = nota_id) = some nota →
      w.clientes nota.cliente_id = some cliente →
      w.domicilios nota.direccion_facturacion_id = some df →
      w.domicilios nota.direccion_envio_id = none →
      (handle_get w nota_id).statusCode = 500) ∧
    (∀ nota cliente df de, w.notas.find? (fun n => n.id = nota_id) = some nota →
      w.clientes nota.cliente_id = some cliente →
      w.domicilios nota.direccion_facturacion_id = some df →
      w.domicilios nota.direccion_envio_id = some de →
      (∃ c ∈ w.contenidos.filter (fun c => c.nota_id = nota_id),
        w.productos c.producto_id = none) →
      (handle_get w nota_id).statusCode = 500) := by
  refine ⟨⟨?_, ?_⟩, ?_, ?_, ?_, ?_⟩
  · intro h404
    cases hfind : w.notas.find? (fun n => n.id = nota_id) with
    | none => rfl
    | some nota =>
      exfalso
      cases hcli : w.clientes nota.cliente_id with
      | none => simp [handle_get, get_nota_venta, hfind, hcli] at h404
      | some cliente =>
      cases hdfa : w.domicilios nota.direccion_facturacion_id with
      | none => simp [handle_get, get_nota_venta, hfind, hcli, hdfa] at h404
      | some df =>
      cases hdea : w.domicilios nota.direccion_envio_id with
      | none =>
        simp [handle_get, get_nota_venta, hfind, hcli, hdfa, hdea] at h404
      | some de =>
      cases hres : resolve_contenidos w.productos
          (w.contenidos.filter (fun c => c.nota_id = nota_id)) with
      | error e =>
        simp [handle_get, get_nota_venta, hfind, hcli, hdfa, hdea, hres] at h404
      | ok gcs =>
        simp [handle_get, get_nota_venta, hfind, hcli, hdfa, hdea, hres] at h404
  · intro hnone
    simp [handle_get, get_nota_venta, hnone]
  · intro nota hfind hcli
    simp [handle_get, get_nota_venta, hfind, hcli]
  · intro nota cliente hfind hcli hdfa
    simp [handle_get, get_nota_venta, hfind, hcli, hdfa]
  · intro nota cliente df hfind hcli hdfa hdea
    simp [handle_get, get_nota_venta, hfind, hcli, hdfa, hdea]
  · intro nota cliente df de hfind hcli hdfa hdea hmiss
    obtain ⟨e, he⟩ := resolve_contenidos_error_of_missing w.productos _ hmiss
    simp [handle_get, get_nota_venta, hfind, hcli, hdfa, hdea, he]

/-- Witness for C10: a store holding a Note whose customer record was
deleted: the detail read surfaces 500, not 404. -/
theorem get_404_only_when_nota_absent_witness :
    wGet.notas.find? (fun n => n.id = "n1") =
      some ⟨"n1", "NV-X", "cMISSING", "d1", "d2", 10, "T"⟩ ∧
    wGet.clientes "cMISSING" = none ∧
    (handle_get wGet "n1").statusCode = 500 :=
  ⟨rfl, rfl,
    (get_404_only_when_nota_absent wGet "n1").2.1
      ⟨"n1", "NV-X", "cMISSING", "d1", "d2", 10, "T"⟩ rfl rfl⟩
